import Mathlib

/-!
Shallow embedding of `src/Assignment3/nnumpy/loss.py` (NicolasKirchmayr/JKUDLNN):
the `Parameter` gradient-accumulation setter, the `Module` forward/backward
cache-stack protocol, the `Tanh`, `Sum` and `Mean` modules and the
`get_reduction` dispatcher, together with theorems settling the spec claims.

Numeric arrays are modelled as Lean lists (flat lists of rationals where the
code is pure arithmetic, lists of reals for `Tanh`, lists of rows for the
axis-0 reductions).  Python exceptions are modelled by an explicit error type;
functions that can raise return `Except PyErr _` and, where the Python code
mutates object state in place, the embedded function additionally returns the
state as it is left behind (also on the error path, since a raised exception
does not undo prior mutations).
-/

namespace NNumpy

/-- Python exception classes that appear in `loss.py`, with their message.
`Module.backward` distinguishes `TypeError` from everything else. -/
inductive PyErr where
  | typeError (msg : String)
  | valueError (msg : String)
  | indexError (msg : String)
  deriving Repr, DecidableEq

/-- State of a `Module` (`loss.py` lines 61-69): the `predicting` flag and the
two cache stacks `_shape_cache` and `_forward_cache`.  A Python list used with
`append`/`pop` is a stack whose top we model as the head of a Lean list.
Each `_shape_cache` entry is the tuple of input shapes recorded by one
`forward` call; a shape is a list of dimension sizes.  `γ` is the type of one
`_forward_cache` entry (module specific). -/
structure ModState (γ : Type) where
  predicting : Bool
  shapeCache : List (List (List Nat))
  forwardCache : List γ
  deriving Repr, DecidableEq

/-- The module-specific operations a `Module` subclass supplies, plus the
array primitives of the ambient numeric library that `forward`/`backward`
use on the array type `α`: `np.shape`, `np.zeros` and in-place `+=`.
`computeOutputs` models `compute_outputs` (one output plus a cache entry),
`computeGrads` models `compute_grads` returning the per-input gradients. -/
structure ModOps (α γ : Type) where
  shapeOf : α → List Nat
  zerosOf : List Nat → α
  add : α → α → α
  computeOutputs : List α → Except PyErr (α × γ)
  computeGrads : α → γ → Except PyErr (List α)

/-- Embeds `for dx_acc, dx in zip(dx_accs, dxs): dx_acc += dx` (`loss.py` 261-262):
in-place addition into the accumulators; like Python's `zip`, extra
accumulators beyond `dxs` are left untouched and extra `dxs` are ignored. -/
def zipAddAccs {α : Type} (add : α → α → α) : List α → List α → List α
  | [], _ => []
  | a :: as, [] => a :: as
  | a :: as, d :: ds => add a d :: zipAddAccs add as ds

/-- The `try:` body of `Module.backward` (`loss.py` 256-262): for each
incoming gradient, run `compute_grads` on the popped cache and accumulate the
returned per-input gradients into the accumulators. -/
def backwardLoop {α γ : Type} (ops : ModOps α γ) (cache : γ) :
    List α → List α → Except PyErr (List α)
  | accs, [] => .ok accs
  | accs, g :: gs => do
      let dxs ← ops.computeGrads g cache
      backwardLoop ops cache (zipAddAccs ops.add accs dxs) gs

/-- Embeds `Module.forward` (`loss.py` 192-219): push the tuple of input shapes onto
`_shape_cache`, run `compute_outputs`, push the returned cache onto
`_forward_cache` and return the output.  If `compute_outputs` raises, the
shape entry has already been pushed and stays pushed (the exception
propagates after the first mutation). -/
def Mod.forward {α γ : Type} (ops : ModOps α γ) (st : ModState γ)
    (inputs : List α) : Except PyErr α × ModState γ :=
  let st1 := { st with shapeCache := inputs.map ops.shapeOf :: st.shapeCache }
  match ops.computeOutputs inputs with
  | .error e => (.error e, st1)
  | .ok (out, cache) =>
      (.ok out, { st1 with forwardCache := cache :: st1.forwardCache })

/-- Embeds `Module.backward` (`loss.py` 221-269): refuse in predicting mode; pop the
shapes (raising `IndexError` on an empty stack), build zero accumulators, pop
the cache (again `IndexError` if empty — the shapes stay popped), run the
gradient loop; a `TypeError` from the loop restores both popped entries and
is re-raised with the `zero_grad` hint appended, any other exception
propagates with the caches left popped.  On success the accumulators are
returned (Python unwraps a singleton tuple to its only element; we return
the list of accumulators). -/
def Mod.backward {α γ : Type} (ops : ModOps α γ) (st : ModState γ)
    (grads : List α) : Except PyErr (List α) × ModState γ :=
  if st.predicting then
    (.error (.valueError "module not in training mode"), st)
  else
    match st.shapeCache with
    | [] => (.error (.indexError "pop from empty list"), st)
    | shapes :: restS =>
      match st.forwardCache with
      | [] =>
          (.error (.indexError "pop from empty list"),
           { st with shapeCache := restS })
      | cache :: restF =>
          let accs := shapes.map ops.zerosOf
          let st2 : ModState γ :=
            { st with shapeCache := restS, forwardCache := restF }
          match backwardLoop ops cache accs grads with
          | .ok accs2 => (.ok accs2, st2)
          | .error (.typeError m) =>
              (.error (.typeError (m ++ "\nDid you forget to call zero_grad()?")),
               { st2 with shapeCache := shapes :: restS,
                          forwardCache := cache :: restF })
          | .error e => (.error e, st2)

/-- A `Parameter` (`loss.py` lines 4-57): a numpy array with an optional
gradient slot `_grad`.  Array contents are flat lists of rationals; the
parameter's own values are `data` (only their shape matters to
`zero_grad`, which builds `np.zeros_like(self)`). -/
structure Param where
  data : List ℚ
  grad : Option (List ℚ)
  deriving Repr, DecidableEq

/-- Embeds `Parameter.zero_grad` (`loss.py` 55-57): `self._grad = np.zeros_like(self)`. -/
def Param.zero_grad (p : Param) : Param :=
  { p with grad := some (List.replicate p.data.length 0) }

/-- Elementwise `+=` of two equal-shape arrays (`self._grad += value`). -/
def vecAdd (g v : List ℚ) : List ℚ := List.zipWith (· + ·) g v

/-- The `Parameter.grad` setter (`loss.py` 26-48).  `value = none` models
assigning the sentinel `None` (runs the deleter); otherwise `np.all(value == 0)`
selects the hard reset, an uninitialised slot raises `ValueError`, and the
gradient is accumulated in place unless the assigned value *is* the current
gradient object (`self._grad is not value`).  Python object identity is not
observable on list contents, so the caller passes `sameObject`, true exactly
when the assigned value is the very object stored in the slot (in which case
its contents necessarily equal the stored contents). -/
def Param.setGrad (p : Param) (value : Option (List ℚ)) (sameObject : Bool) :
    Except PyErr Param :=
  match value with
  | none => .ok { p with grad := none }
  | some v =>
      if v.all (· = 0) then .ok p.zero_grad
      else
        match p.grad with
        | none => .error (.valueError "Gradients have not yet been initialised!")
        | some g => if sameObject then .ok p
                    else .ok { p with grad := some (vecAdd g v) }

/-- A sequence of gradient assignments of fresh value arrays
(`p.grad = v1; p.grad = v2; ...`, each `vᵢ` a newly built array, so never the
object stored in the slot), stopping at the first exception. -/
def Param.setGradList (p : Param) : List (List ℚ) → Except PyErr Param
  | [] => .ok p
  | v :: vs => do
      let p1 ← p.setGrad (some v) false
      p1.setGradList vs

/-- Result of `get_reduction` (`loss.py` 478-487): one of the three reduction
modules, carrying the axis it was constructed with. -/
inductive Reduction where
  | identity
  | sumRed (axis : Nat)
  | meanRed (axis : Nat)
  deriving Repr, DecidableEq

/-- Models Python's `str.lower()` on the ASCII names the dispatcher compares
against: lowercase every character. -/
def pyLower (s : String) : String := String.mk (s.data.map Char.toLower)

/-- Embeds `get_reduction(name, axis)` (`loss.py` 478-487): lowercase the name;
empty or `'none'` gives `Identity()`, `'sum'` gives `Sum(axis)`, `'mean'`,
`'avg'` or `'average'` give `Mean(axis)`, anything else raises
`ValueError("unknown aggregation: ...")`.  (`if not name` is Python string
truthiness: it fires exactly on the empty string.) -/
def get_reduction (name : String) (axis : Nat) : Except PyErr Reduction :=
  let n := pyLower name
  if n = "" ∨ n = "none" then .ok .identity
  else if n = "sum" then .ok (.sumRed axis)
  else if n = "mean" ∨ n = "avg" ∨ n = "average" then .ok (.meanRed axis)
  else .error (.valueError ("unknown aggregation: " ++ n))

/-- Number of columns of a 2-D array modelled as a list of rows. -/
def width (x : List (List ℚ)) : Nat := (x.headD []).length

/-- Column-wise sum of the rows: `np.sum(x, axis=0)` for a 2-D array
(`axis = 0` instantiates the module's `axis` parameter at its default). -/
def colSum (x : List (List ℚ)) : List ℚ :=
  x.foldr vecAdd (List.replicate (width x) 0)

/-- Embeds `Sum.compute_outputs` (`loss.py` 454-455): the axis-0 sum plus the cached
input shape `(rows, cols)`. -/
def sumComputeOutputs (x : List (List ℚ)) : List ℚ × (Nat × Nat) :=
  (colSum x, (x.length, width x))

/-- Embeds `np.broadcast_to(np.expand_dims(grads, 0), shape)`: valid only when the
gradient already has the reduced shape, in which case it is repeated along
the restored axis. -/
def broadcastTo (g : List ℚ) (shape : Nat × Nat) : Option (List (List ℚ)) :=
  if g.length = shape.2 then some (List.replicate shape.1 g) else none

/-- Embeds `Sum.compute_grads` (`loss.py` 457-459): broadcast the incoming reduced
gradient back to the cached input shape, unchanged. -/
def sumComputeGrads (g : List ℚ) (shape : Nat × Nat) :
    Option (List (List ℚ)) :=
  broadcastTo g shape

/-- Embeds `Mean.compute_outputs` (`loss.py` 471-472): the axis-0 mean plus the
cached input shape. -/
def meanComputeOutputs (x : List (List ℚ)) : List ℚ × (Nat × Nat) :=
  ((colSum x).map (· / (x.length : ℚ)), (x.length, width x))

/-- Embeds `Mean.compute_grads` (`loss.py` 474-476): the broadcast gradient divided
elementwise by the size of the reduced axis, `shape[axis]`. -/
def meanComputeGrads (g : List ℚ) (shape : Nat × Nat) :
    Option (List (List ℚ)) :=
  (broadcastTo g shape).map (fun rows => rows.map (fun r => r.map (· / (shape.1 : ℚ))))

/-- Embeds `Tanh.compute_outputs` (`loss.py` 405-418, identical in `tanh.py`):
returns `np.tanh(s)` and caches the raw input `s`.  Floating-point arrays are
modelled as lists of reals. -/
noncomputable def tanhComputeOutputs (s : List ℝ) : List ℝ × List ℝ :=
  (s.map Real.tanh, s)

/-- Embeds `Tanh.compute_grads` (`loss.py` 421-433): elementwise
`grads * (1 - np.tanh(cache)**2)`. -/
noncomputable def tanhComputeGrads (grads cache : List ℝ) : List ℝ :=
  List.zipWith (fun g c => g * (1 - Real.tanh c ^ 2)) grads cache

/-- The `Tanh` module packaged for the generic `forward`/`backward` wrapper:
one input, 1-D real arrays (shape = length), cache = the input array. -/
noncomputable def tanhOps : ModOps (List ℝ) (List ℝ) where
  shapeOf a := [a.length]
  zerosOf sh := List.replicate (sh.headD 0) 0
  add := List.zipWith (· + ·)
  computeOutputs inputs :=
    match inputs with
    | [s] => .ok (tanhComputeOutputs s)
    | _ => .error (.typeError "compute_outputs() takes 2 positional arguments")
  computeGrads g cache := .ok [tanhComputeGrads g cache]

/-- State of a freshly constructed module (`Module.__init__`, `loss.py` 64-69):
training mode, both cache stacks empty. -/
def initState (γ : Type) : ModState γ := ⟨false, [], []⟩

/-- Trivial concrete module used to exercise the generic wrapper: one `Unit`
input, `compute_outputs` and `compute_grads` always succeed. -/
def unitOps : ModOps Unit Unit where
  shapeOf _ := []
  zerosOf _ := ()
  add _ _ := ()
  computeOutputs _ := .ok ((), ())
  computeGrads _ _ := .ok [()]

/-- Concrete module whose `compute_outputs` raises a `TypeError`. -/
def failOps : ModOps Unit Unit where
  shapeOf _ := []
  zerosOf _ := ()
  add _ _ := ()
  computeOutputs _ := .error (.typeError "unsupported operand type(s)")
  computeGrads _ _ := .ok [()]

/-- Concrete module whose `compute_grads` raises a `ValueError` (as the
`Parameter.grad` setter does on an uninitialised slot). -/
def valErrOps : ModOps Unit Unit where
  shapeOf _ := []
  zerosOf _ := ()
  add _ _ := ()
  computeOutputs _ := .ok ((), ())
  computeGrads _ _ := .error (.valueError "Gradients have not yet been initialised!")

/-- Concrete module whose `compute_grads` raises a `TypeError` (as numpy's
in-place `+=` does when handed `None`). -/
def typeErrOps : ModOps Unit Unit where
  shapeOf _ := []
  zerosOf _ := ()
  add _ _ := ()
  computeOutputs _ := .ok ((), ())
  computeGrads _ _ := .error (.typeError "unsupported operand type(s) for +=")

/-- Module state after one successful `forward` of a single scalar-shaped
input on a fresh module: one entry on each stack. -/
def oneSt : ModState Unit := ⟨false, [[[]]], [()]⟩

/-- Iterated pointwise sum of a list of vectors of length `n`. -/
def sumVecs (n : Nat) (vs : List (List ℚ)) : List ℚ :=
  vs.foldr vecAdd (List.replicate n 0)

/-- Concrete parameter with an initialised, nonzero gradient. -/
def pEx : Param := ⟨[1], some [2]⟩

/-! Helper lemmas: `Mod.forward` and `Mod.backward` evaluated on a state given
by an explicit constructor. -/

lemma forward_eval {α γ : Type} (ops : ModOps α γ) (pred : Bool)
    (sc : List (List (List Nat))) (fc : List γ) (inputs : List α) :
    Mod.forward ops ⟨pred, sc, fc⟩ inputs =
      match ops.computeOutputs inputs with
      | .error e => (.error e, ⟨pred, inputs.map ops.shapeOf :: sc, fc⟩)
      | .ok (out, cache) =>
          (.ok out, ⟨pred, inputs.map ops.shapeOf :: sc, cache :: fc⟩) := rfl

lemma backward_eval_predicting {α γ : Type} (ops : ModOps α γ)
    (sc : List (List (List Nat))) (fc : List γ) (grads : List α) :
    Mod.backward ops ⟨true, sc, fc⟩ grads =
      (.error (.valueError "module not in training mode"), ⟨true, sc, fc⟩) := rfl

lemma backward_eval_empty_shape {α γ : Type} (ops : ModOps α γ) (fc : List γ)
    (grads : List α) :
    Mod.backward ops ⟨false, [], fc⟩ grads =
      (.error (.indexError "pop from empty list"), ⟨false, [], fc⟩) := rfl

lemma backward_eval_empty_forward {α γ : Type} (ops : ModOps α γ)
    (shapes : List (List Nat)) (restS : List (List (List Nat)))
    (grads : List α) :
    Mod.backward ops ⟨false, shapes :: restS, []⟩ grads =
      (.error (.indexError "pop from empty list"), ⟨false, restS, []⟩) := rfl

lemma backward_eval_cons {α γ : Type} (ops : ModOps α γ)
    (shapes : List (List Nat)) (restS : List (List (List Nat)))
    (cache : γ) (restF : List γ) (grads : List α) :
    Mod.backward ops ⟨false, shapes :: restS, cache :: restF⟩ grads =
      (match backwardLoop ops cache (shapes.map ops.zerosOf) grads with
       | .ok accs2 => (.ok accs2, ⟨false, restS, restF⟩)
       | .error (.typeError m) =>
           (.error (.typeError (m ++ "\nDid you forget to call zero_grad()?")),
            ⟨false, shapes :: restS, cache :: restF⟩)
       | .error (.valueError m) => (.error (.valueError m), ⟨false, restS, restF⟩)
       | .error (.indexError m) => (.error (.indexError m), ⟨false, restS, restF⟩)) := by
  cases hl : backwardLoop ops cache (shapes.map ops.zerosOf) grads with
  | ok accs2 => simp only [Mod.backward, hl]; rfl
  | error e => cases e <;> (simp only [Mod.backward, hl]; rfl)

/-- C1: in training mode, each successful `forward` pushes exactly one entry
onto the shape cache (the tuple of input shapes) and exactly one entry onto
the forward cache (the cache returned by `compute_outputs`); each successful
`backward` pops exactly one entry from each stack; and the pairing is LIFO:
a successful `backward` computes its result from the top (most recently
pushed, hence most recent unmatched `forward`) shape and cache entries. -/
theorem c1_stack_discipline {α γ : Type} (ops : ModOps α γ) (st : ModState γ)
    (inputs grads : List α) :
    (∀ out st1, Mod.forward ops st inputs = (.ok out, st1) →
        st1.shapeCache = inputs.map ops.shapeOf :: st.shapeCache ∧
        ∃ cache, ops.computeOutputs inputs = .ok (out, cache) ∧
          st1.forwardCache = cache :: st.forwardCache) ∧
    (∀ dxs st1, Mod.backward ops st grads = (.ok dxs, st1) →
        st1.shapeCache = st.shapeCache.tail ∧
        st1.forwardCache = st.forwardCache.tail ∧
        st1.predicting = st.predicting) ∧
    (∀ shapes restS cache restF dxs st1, st.predicting = false →
        st.shapeCache = shapes :: restS → st.forwardCache = cache :: restF →
        Mod.backward ops st grads = (.ok dxs, st1) →
        backwardLoop ops cache (shapes.map ops.zerosOf) grads = .ok dxs) := by
  obtain ⟨pred, sc, fc⟩ := st
  refine ⟨?_, ?_, ?_⟩
  · intro out st1 h
    rw [forward_eval] at h
    cases hc : ops.computeOutputs inputs with
    | error e => rw [hc] at h; simp at h
    | ok oc =>
        obtain ⟨o, c⟩ := oc
        rw [hc] at h
        simp only [Prod.mk.injEq, Except.ok.injEq] at h
        obtain ⟨ho, hst⟩ := h
        subst ho; subst hst
        exact ⟨rfl, c, rfl, rfl⟩
  · intro dxs st1 h
    cases pred with
    | true => rw [backward_eval_predicting] at h; simp at h
    | false =>
      cases sc with
      | nil => rw [backward_eval_empty_shape] at h; simp at h
      | cons shapes restS =>
        cases fc with
        | nil => rw [backward_eval_empty_forward] at h; simp at h
        | cons cache restF =>
          rw [backward_eval_cons] at h
          cases hl : backwardLoop ops cache (shapes.map ops.zerosOf) grads with
          | ok accs2 =>
              rw [hl] at h
              simp only [Prod.mk.injEq, Except.ok.injEq] at h
              obtain ⟨_, hst⟩ := h
              subst hst
              exact ⟨rfl, rfl, rfl⟩
          | error e =>
              rw [hl] at h
              cases e <;> simp at h
  · intro shapes restS cache restF dxs st1 hp hs hf h
    simp only at hp hs hf
    subst hp; subst hs; subst hf
    rw [backward_eval_cons] at h
    cases hl : backwardLoop ops cache (shapes.map ops.zerosOf) grads with
    | ok accs2 =>
        rw [hl] at h
        simp only [Prod.mk.injEq, Except.ok.injEq] at h
        rw [h.1]
    | error e =>
        rw [hl] at h
        cases e <;> simp at h

/-- Witness for C1: a single forward-then-backward round trip on a concrete
one-input module, with the gradient loop reproducing the popped-top result. -/
theorem c1_stack_discipline_witness :
    oneSt.predicting = false ∧ oneSt.shapeCache = [[]] :: [] ∧
    oneSt.forwardCache = () :: [] ∧
    Mod.backward unitOps oneSt [()] = (.ok [()], ⟨false, [], []⟩) ∧
    backwardLoop unitOps () ([[]].map unitOps.zerosOf) [()] = .ok [()] :=
  ⟨rfl, rfl, rfl, rfl,
   (c1_stack_discipline unitOps oneSt [()] [()]).2.2 [[]] [] () [] [()]
     ⟨false, [], []⟩ rfl rfl rfl rfl⟩

/-- C2: in training mode with both cache stacks empty (no unmatched prior
`forward`), `backward` raises the stack-underflow `IndexError` of popping an
empty Python list, leaving the state unchanged. -/
theorem c2_backward_underflow {α γ : Type} (ops : ModOps α γ) (st : ModState γ)
    (grads : List α) (hp : st.predicting = false) (hs : st.shapeCache = [])
    (hf : st.forwardCache = []) :
    Mod.backward ops st grads =
      (.error (.indexError "pop from empty list"), st) := by
  obtain ⟨pred, sc, fc⟩ := st
  simp only at hp hs hf
  subst hp; subst hs; subst hf
  exact backward_eval_empty_shape ops [] grads

/-- Witness for C2: a second `backward` in a row on a freshly drained module. -/
theorem c2_backward_underflow_witness :
    (initState Unit).predicting = false ∧ (initState Unit).shapeCache = [] ∧
    (initState Unit).forwardCache = [] ∧
    Mod.backward unitOps (initState Unit) [] =
      (.error (.indexError "pop from empty list"), initState Unit) :=
  ⟨rfl, rfl, rfl, c2_backward_underflow unitOps (initState Unit) [] rfl rfl rfl⟩

/-- C9: `forward` is not atomic on error: in training mode with equal-length
cache stacks, when `compute_outputs` raises, the already-pushed shape entry
stays on the shape cache, nothing is pushed onto the forward cache, and the
two stacks end up with unequal lengths. -/
theorem c9_forward_not_atomic {α γ : Type} (ops : ModOps α γ) (st : ModState γ)
    (inputs : List α) (e : PyErr) (hp : st.predicting = false)
    (hlen : st.shapeCache.length = st.forwardCache.length)
    (hc : ops.computeOutputs inputs = .error e) :
    Mod.forward ops st inputs =
      (.error e, { st with shapeCache := inputs.map ops.shapeOf :: st.shapeCache }) ∧
    (Mod.forward ops st inputs).2.shapeCache.length ≠
      (Mod.forward ops st inputs).2.forwardCache.length := by
  obtain ⟨pred, sc, fc⟩ := st
  have h1 : Mod.forward ops ⟨pred, sc, fc⟩ inputs =
      (.error e, ⟨pred, inputs.map ops.shapeOf :: sc, fc⟩) := by
    rw [forward_eval, hc]
  refine ⟨h1, ?_⟩
  rw [h1]
  simp only [List.length_cons]
  simp only at hlen
  omega

/-- Witness for C9: a module whose `compute_outputs` raises on a fresh state. -/
theorem c9_forward_not_atomic_witness :
    (initState Unit).predicting = false ∧
    (initState Unit).shapeCache.length = (initState Unit).forwardCache.length ∧
    failOps.computeOutputs [()] = .error (.typeError "unsupported operand type(s)") ∧
    (Mod.forward failOps (initState Unit) [()] =
        (.error (.typeError "unsupported operand type(s)"),
         ⟨false, [[[]]], []⟩) ∧
      (Mod.forward failOps (initState Unit) [()]).2.shapeCache.length ≠
        (Mod.forward failOps (initState Unit) [()]).2.forwardCache.length) :=
  ⟨rfl, rfl, rfl,
   c9_forward_not_atomic failOps (initState Unit) [()]
     (.typeError "unsupported operand type(s)") rfl rfl rfl⟩

/-- C3 counterexample: with one unmatched forward in flight, a gradient
computation failing with a `ValueError` (the uninitialised-gradient error the
`Parameter.grad` setter raises) leaves both caches popped — the pre-call
state is NOT restored — and the raised error carries no `zero_grad` hint. -/
theorem c3_counterexample :
    (Mod.backward valErrOps oneSt [()]).2 ≠ oneSt ∧
    (Mod.backward valErrOps oneSt [()]).2 = ⟨false, [], []⟩ ∧
    (Mod.backward valErrOps oneSt [()]).1 =
      .error (.valueError "Gradients have not yet been initialised!") := by
  have h2 : (Mod.backward valErrOps oneSt [()]).2 = (⟨false, [], []⟩ : ModState Unit) :=
    rfl
  refine ⟨?_, h2, rfl⟩
  rw [h2]
  intro h
  have h3 := congrArg ModState.shapeCache h
  simp [oneSt] at h3

/-- C3 (amended): the restore-and-hint path fires exactly for `TypeError`:
when the gradient loop of `backward` fails with a `TypeError`, both popped
entries are pushed back (the state is exactly the pre-call one) and the
re-raised `TypeError` appends the `zero_grad` hint to the original message. -/
theorem c3_restore_on_typeerror {α γ : Type} (ops : ModOps α γ)
    (st : ModState γ) (grads : List α) (shapes : List (List Nat))
    (restS : List (List (List Nat))) (cache : γ) (restF : List γ) (m : String)
    (hp : st.predicting = false) (hs : st.shapeCache = shapes :: restS)
    (hf : st.forwardCache = cache :: restF)
    (hl : backwardLoop ops cache (shapes.map ops.zerosOf) grads =
      .error (.typeError m)) :
    Mod.backward ops st grads =
      (.error (.typeError (m ++ "\nDid you forget to call zero_grad()?")), st) := by
  obtain ⟨pred, sc, fc⟩ := st
  simp only at hp hs hf
  subst hp; subst hs; subst hf
  rw [backward_eval_cons, hl]

/-- Witness for C3 (amended): a `TypeError`-raising gradient computation with
one in-flight forward; the state is restored and the hint appended. -/
theorem c3_restore_on_typeerror_witness :
    oneSt.predicting = false ∧ oneSt.shapeCache = [[]] :: [] ∧
    oneSt.forwardCache = () :: [] ∧
    backwardLoop typeErrOps () ([[]].map typeErrOps.zerosOf) [()] =
      .error (.typeError "unsupported operand type(s) for +=") ∧
    Mod.backward typeErrOps oneSt [()] =
      (.error (.typeError ("unsupported operand type(s) for +=" ++
        "\nDid you forget to call zero_grad()?")), oneSt) :=
  ⟨rfl, rfl, rfl, rfl,
   c3_restore_on_typeerror typeErrOps oneSt [()] [[]] [] () []
     "unsupported operand type(s) for +=" rfl rfl rfl rfl⟩

/-- C4 counterexample: for a parameter whose gradient is initialised at `[2]`
(not entirely zero), assigning that very gradient object back to the setter
does NOT accumulate: the result is the unchanged parameter, and the
accumulated parameter (gradient `[2] + [2]`) is a different value — so the
claim's final "otherwise the assigned value is accumulated" case is false. -/
theorem c4_counterexample :
    pEx.grad = some [2] ∧ (([2] : List ℚ).all (· = 0)) = false ∧
    Param.setGrad pEx (some [2]) true = .ok pEx ∧
    pEx ≠ { pEx with grad := some (vecAdd [2] [2]) } := by
  refine ⟨rfl, by decide, rfl, ?_⟩
  intro h
  have h2 := congrArg Param.grad h
  simp [pEx, vecAdd] at h2

/-- C4 (amended): the `grad` setter behaves by five cases: `None` clears the
slot; an entirely-zero value hard-resets to a zero array of the parameter's
shape; a not-all-zero value with an uninitialised slot raises; a not-all-zero
value that is a different object from the stored gradient is accumulated
(added) into it; and assigning the stored gradient object itself back is a
no-op. -/
theorem c4_grad_setter_cases (p : Param) (v : List ℚ) (same : Bool) :
    (Param.setGrad p none same = .ok { p with grad := none }) ∧
    (v.all (· = 0) = true → Param.setGrad p (some v) same = .ok p.zero_grad) ∧
    (v.all (· = 0) = false → p.grad = none →
        Param.setGrad p (some v) same =
          .error (.valueError "Gradients have not yet been initialised!")) ∧
    (∀ g, v.all (· = 0) = false → p.grad = some g → same = false →
        Param.setGrad p (some v) same = .ok { p with grad := some (vecAdd g v) }) ∧
    (∀ g, v.all (· = 0) = false → p.grad = some g → same = true →
        Param.setGrad p (some v) same = .ok p) := by
  refine ⟨rfl, ?_, ?_, ?_, ?_⟩
  · intro hz
    simp [Param.setGrad, hz]
  · intro hz hg
    simp [Param.setGrad, hz, hg]
  · intro g hz hg hsame
    simp [Param.setGrad, hz, hg, hsame]
  · intro g hz hg hsame
    simp [Param.setGrad, hz, hg, hsame]

/-- Witness for C4 (amended): accumulating a fresh nonzero value `[3]` into an
initialised gradient `[2]`. -/
theorem c4_grad_setter_cases_witness :
    (([3] : List ℚ).all (· = 0)) = false ∧ pEx.grad = some [2] ∧
    Param.setGrad pEx (some [3]) false =
      .ok { pEx with grad := some (vecAdd [2] [3]) } :=
  ⟨by decide, rfl,
   (c4_grad_setter_cases pEx [3] false).2.2.2.1 [2] (by decide) rfl rfl⟩

/-! Vector-arithmetic helper lemmas for the accumulation invariant. -/

lemma vecAdd_length (g v : List ℚ) :
    (vecAdd g v).length = min g.length v.length := by
  simp [vecAdd]

lemma vecAdd_replicate_zero (g : List ℚ) :
    vecAdd g (List.replicate g.length 0) = g := by
  induction g with
  | nil => rfl
  | cons x xs ih =>
      simp only [vecAdd, List.length_cons, List.replicate_succ,
        List.zipWith_cons_cons, add_zero]
      simp only [vecAdd] at ih
      rw [ih]

lemma vecAdd_assoc (a b c : List ℚ) :
    vecAdd (vecAdd a b) c = vecAdd a (vecAdd b c) := by
  induction a generalizing b c with
  | nil => rfl
  | cons x xs ih =>
      cases b with
      | nil => rfl
      | cons y ys =>
          cases c with
          | nil => rfl
          | cons z zs =>
              simp only [vecAdd, List.zipWith_cons_cons, add_assoc]
              simp only [vecAdd] at ih
              rw [ih]

lemma setGradList_accumulates (p : Param) (g0 : List ℚ) (vs : List (List ℚ))
    (hg : p.grad = some g0) (hnz : ∀ v ∈ vs, v.all (· = 0) = false) :
    p.setGradList vs = .ok { p with grad := some (vs.foldl vecAdd g0) } := by
  induction vs generalizing p g0 with
  | nil =>
      obtain ⟨d, gr⟩ := p
      simp only at hg
      subst hg
      rfl
  | cons v vs ih =>
      have hv : v.all (· = 0) = false := hnz v (List.mem_cons_self _ _)
      have hstep : p.setGrad (some v) false =
          .ok { p with grad := some (vecAdd g0 v) } := by
        simp [Param.setGrad, hv, hg]
      have hrw : p.setGradList (v :: vs) =
          Param.setGradList { p with grad := some (vecAdd g0 v) } vs := by
        simp only [Param.setGradList, hstep]
        rfl
      rw [hrw]
      exact ih _ (vecAdd g0 v) rfl (fun w hw => hnz w (List.mem_cons_of_mem _ hw))

lemma foldl_vecAdd_eq (g0 : List ℚ) (vs : List (List ℚ))
    (hlen : ∀ v ∈ vs, v.length = g0.length) :
    vs.foldl vecAdd g0 = vecAdd g0 (sumVecs g0.length vs) := by
  induction vs generalizing g0 with
  | nil => simpa [sumVecs] using (vecAdd_replicate_zero g0).symm
  | cons v vs ih =>
      have hv : v.length = g0.length := hlen v (List.mem_cons_self _ _)
      have hminlen : (vecAdd g0 v).length = g0.length := by
        rw [vecAdd_length, hv, Nat.min_self]
      have hlen2 : ∀ w ∈ vs, w.length = (vecAdd g0 v).length := by
        intro w hw
        rw [hminlen]
        exact hlen w (List.mem_cons_of_mem _ hw)
      have h1 : (v :: vs).foldl vecAdd g0 = vs.foldl vecAdd (vecAdd g0 v) := rfl
      rw [h1, ih (vecAdd g0 v) hlen2, hminlen, vecAdd_assoc]
      rfl

/-- C5: starting from an initialised gradient `g0`, a sequence of nonzero
fresh-array gradient assignments (no intervening zero or clear) accumulates
additively: the final gradient is `g0` plus the pointwise sum of all assigned
contributions, never an overwrite. -/
theorem c5_accumulation_sums (p : Param) (g0 : List ℚ) (vs : List (List ℚ))
    (hg : p.grad = some g0)
    (hnz : ∀ v ∈ vs, v.all (· = 0) = false)
    (hlen : ∀ v ∈ vs, v.length = g0.length) :
    p.setGradList vs =
      .ok { p with grad := some (vecAdd g0 (sumVecs g0.length vs)) } := by
  rw [setGradList_accumulates p g0 vs hg hnz, foldl_vecAdd_eq g0 vs hlen]

/-- Witness for C5: two nonzero assignments into gradient `[5, 6]` sum to
`[5, 6] + ([1, 2] + [3, 4]) = [9, 12]`. -/
theorem c5_accumulation_sums_witness :
    (⟨[0, 0], some [5, 6]⟩ : Param).grad = some [5, 6] ∧
    (∀ v ∈ [[1, 2], [3, 4]], List.all v (· = (0 : ℚ)) = false) ∧
    (∀ v ∈ [[1, 2], [3, 4]], List.length v = List.length ([5, 6] : List ℚ)) ∧
    Param.setGradList ⟨[0, 0], some [5, 6]⟩ [[1, 2], [3, 4]] =
      .ok ⟨[0, 0], some (vecAdd [5, 6] (sumVecs 2 [[1, 2], [3, 4]]))⟩ ∧
    vecAdd [5, 6] (sumVecs 2 [[1, 2], [3, 4]]) = [9, 12] :=
  ⟨rfl, by decide, by decide,
   c5_accumulation_sums ⟨[0, 0], some [5, 6]⟩ [5, 6] [[1, 2], [3, 4]] rfl
     (by decide) (by decide),
   by norm_num [vecAdd, sumVecs, List.replicate]⟩

/-- C10: assigning a parameter's own current gradient object back to the
setter (with the gradient initialised and not entirely zero) is a no-op —
the identity check skips accumulation, so the gradient is not doubled. -/
theorem c10_self_assign_noop (p : Param) (g : List ℚ)
    (hg : p.grad = some g) (hnz : g.all (· = 0) = false) :
    Param.setGrad p (some g) true = .ok p := by
  simp [Param.setGrad, hg, hnz]

/-- Witness for C10 at gradient `[2]`. -/
theorem c10_self_assign_noop_witness :
    pEx.grad = some [2] ∧ (([2] : List ℚ).all (· = 0)) = false ∧
    Param.setGrad pEx (some [2]) true = .ok pEx :=
  ⟨rfl, by decide, c10_self_assign_noop pEx [2] rfl (by decide)⟩

/-- C7: for a 2-D input `x` reduced along axis 0 (the modules' default axis,
of size `N = x.length`), `Sum`'s backward broadcasts an incoming reduced
gradient of matching width back to `x`'s original shape unchanged (one copy
per row), and `Mean`'s backward broadcasts it scaled elementwise by `1/N`. -/
theorem c7_sum_mean_backward (x : List (List ℚ)) (g : List ℚ)
    (hw : g.length = width x) :
    sumComputeGrads g (sumComputeOutputs x).2 =
      some (List.replicate x.length g) ∧
    meanComputeGrads g (meanComputeOutputs x).2 =
      some (List.replicate x.length (g.map (· / (x.length : ℚ)))) := by
  constructor
  · simp [sumComputeGrads, sumComputeOutputs, broadcastTo, hw]
  · simp [meanComputeGrads, meanComputeOutputs, broadcastTo, hw,
      List.map_replicate]

/-- Witness for C7 on the 2×2 input `[[1, 2], [3, 4]]` with gradient `[1, 1]`. -/
theorem c7_sum_mean_backward_witness :
    ([1, 1] : List ℚ).length = width [[1, 2], [3, 4]] ∧
    (sumComputeGrads [1, 1] (sumComputeOutputs [[1, 2], [3, 4]]).2 =
        some (List.replicate (List.length ([[1, 2], [3, 4]] : List (List ℚ)))
          [1, 1]) ∧
      meanComputeGrads [1, 1] (meanComputeOutputs [[1, 2], [3, 4]]).2 =
        some (List.replicate (List.length ([[1, 2], [3, 4]] : List (List ℚ)))
          (List.map (· / ((List.length ([[1, 2], [3, 4]] : List (List ℚ))) : ℚ))
            [1, 1]))) :=
  ⟨by decide, c7_sum_mean_backward [[1, 2], [3, 4]] [1, 1] (by decide)⟩

/-- C8 counterexample: the name `'avg'` lies outside `{'none', 'sum', 'mean'}`
yet `get_reduction` returns a `Mean` module instead of raising the
unknown-reduction error. -/
theorem c8_counterexample :
    get_reduction "avg" 0 = .ok (.meanRed 0) ∧
    "avg" ≠ "none" ∧ "avg" ≠ "sum" ∧ "avg" ≠ "mean" := by
  exact ⟨rfl, by decide, by decide, by decide⟩

/-- C8 (amended): after lowercasing, the dispatcher yields `Identity` for the
empty string or `'none'`, `Sum` for `'sum'`, `Mean` for `'mean'`, `'avg'` or
`'average'`, and raises the unknown-aggregation `ValueError` for every name
outside that six-element set. -/
theorem c8_reduction_dispatch (name : String) (axis : Nat) :
    ((pyLower name = "" ∨ pyLower name = "none") →
        get_reduction name axis = .ok .identity) ∧
    (pyLower name = "sum" → get_reduction name axis = .ok (.sumRed axis)) ∧
    ((pyLower name = "mean" ∨ pyLower name = "avg" ∨ pyLower name = "average") →
        get_reduction name axis = .ok (.meanRed axis)) ∧
    (pyLower name ∉ (["", "none", "sum", "mean", "avg", "average"] : List String) →
        get_reduction name axis =
          .error (.valueError ("unknown aggregation: " ++ pyLower name))) := by
  refine ⟨?_, ?_, ?_, ?_⟩
  · intro h
    rcases h with h | h <;> simp [get_reduction, h]
  · intro h
    simp [get_reduction, h]
  · intro h
    rcases h with h | h | h <;> simp [get_reduction, h]
  · intro h
    simp only [List.mem_cons, List.not_mem_nil, or_false, not_or] at h
    obtain ⟨h1, h2, h3, h4, h5, h6⟩ := h
    simp [get_reduction, h1, h2, h3, h4, h5, h6]

/-- Witness for C8 (amended): `'SUM'` lowercases to `'sum'` and selects the
`Sum` module. -/
theorem c8_reduction_dispatch_witness :
    pyLower "SUM" = "sum" ∧ get_reduction "SUM" 0 = .ok (.sumRed 0) :=
  ⟨by decide, (c8_reduction_dispatch "SUM" 0).2.1 (by decide)⟩

lemma tanh_ones_grad (s : List ℝ) :
    List.zipWith (· + ·) (List.replicate s.length (0 : ℝ))
      (tanhComputeGrads (List.replicate s.length 1) s) =
      s.map (fun x => 1 - Real.tanh x ^ 2) := by
  induction s with
  | nil => rfl
  | cons x xs ih =>
      simp only [tanhComputeGrads] at ih ⊢
      simp only [List.length_cons, List.replicate_succ, List.zipWith_cons_cons,
        List.map_cons, zero_add, one_mul]
      rw [ih]

/-- C6: a `Tanh` forward pass on input `s` followed by a backward pass with an
all-ones incoming gradient returns exactly the analytic derivative
`1 - tanh(s)^2` elementwise (the forward output being `tanh(s)`). -/
theorem c6_tanh_backward_analytic (s : List ℝ) :
    (Mod.forward tanhOps (initState (List ℝ)) [s]).1 = .ok (s.map Real.tanh) ∧
    (Mod.backward tanhOps (Mod.forward tanhOps (initState (List ℝ)) [s]).2
        [List.replicate s.length 1]).1 =
      .ok [s.map (fun x => 1 - Real.tanh x ^ 2)] := by
  have hf : Mod.forward tanhOps (initState (List ℝ)) [s] =
      (.ok (s.map Real.tanh), ⟨false, [[[s.length]]], [s]⟩) := rfl
  refine ⟨by rw [hf], ?_⟩
  rw [hf]
  have hl : backwardLoop tanhOps s ([[s.length]].map tanhOps.zerosOf)
      [List.replicate s.length 1] =
      .ok [List.zipWith (· + ·) (List.replicate s.length (0 : ℝ))
        (tanhComputeGrads (List.replicate s.length 1) s)] := rfl
  rw [backward_eval_cons, hl, tanh_ones_grad]

end NNumpy
